import Mathlib

/-
Shallow embedding of src/vars.c (the filebench variable / attribute-value
descriptor engine).  C pointers into shared memory are modelled by value
snapshots plus an `id` field standing in for the variable's address; the
interprocess arena allocator is modelled by an allocation oracle
`A : Nat -> Bool` consulted once per allocation event, with the event
counter `ticks` threaded through the state.  `filebench_shutdown` is
modelled by the `term` flag of the state.  C doubles are modelled as
rationals (no floating-point arithmetic is performed in this module beyond
widening and truncating conversions).
-/

namespace FbVars

/-- Scope classes: the VAR_TYPE_MASK part of `var_type` in vars.c
(VAR_TYPE_NORMAL, VAR_TYPE_SPECIAL, VAR_TYPE_LOCAL, VAR_TYPE_RANDOM). -/
inductive VarScope
  | normal
  | special
  | loc
  | random
deriving DecidableEq

/-- Random-distribution families: the RAND_TYPE_MASK part of `rnd_type`
(RAND_TYPE_UNIFORM, RAND_TYPE_GAMMA, RAND_TYPE_TABLE, or anything else). -/
inductive RandFamily
  | uniform
  | gammaFam
  | table
  | other
deriving DecidableEq

/-- Modelled from the spec: the random-distribution object (`randdist_t`,
implemented by the external random-distribution provider, not under src/).
Only the fields this module touches are modelled: the family and entropy
tags of `rnd_type`, the back link `rnd_var` (as an owner id), and the value
the external sampling function `rnd_get` would return. -/
structure RandDist where
  family : RandFamily
  srcGen : Bool
  rndVar : Option Nat
  sample : ℚ
deriving DecidableEq

/-- Modelled from the spec: `var_t` from vars.h (not under src/).  Per the
spec's data model, the value facets are independently settable, each with
its own is-set flag (the VAR_TYPE_*_SET bits of `var_type`), and setting
one facet never clears another facet's flag.  `id` stands in for the
shared-memory address of the variable (pointer identity). -/
structure Var where
  id : Nat
  name : String
  scope : VarScope
  bset : Bool
  iset : Bool
  dset : Bool
  sset : Bool
  rset : Bool
  boolean : Bool
  integer : Nat
  dblflt : ℚ
  string : Option String
  randptr : Option RandDist
deriving DecidableEq

/-- Modelled from the spec: VAR_SET_BOOL from vars.h — store the value and
raise the boolean is-set flag, leaving every other facet alone. -/
def VAR_SET_BOOL (v : Var) (b : Bool) : Var :=
  { v with boolean := b, bset := true }

/-- Modelled from the spec: VAR_SET_INT from vars.h. -/
def VAR_SET_INT (v : Var) (n : Nat) : Var :=
  { v with integer := n, iset := true }

/-- Modelled from the spec: VAR_SET_DBL from vars.h. -/
def VAR_SET_DBL (v : Var) (d : ℚ) : Var :=
  { v with dblflt := d, dset := true }

/-- Modelled from the spec: VAR_SET_STR from vars.h. -/
def VAR_SET_STR (v : Var) (s : String) : Var :=
  { v with string := some s, sset := true }

/-- Modelled from the spec: VAR_SET_RAND from vars.h. -/
def VAR_SET_RAND (v : Var) (r : RandDist) : Var :=
  { v with randptr := some r, rset := true }

/-- (var_type & VAR_TYPE_SET_MASK) == 0 : no value facet has been set. -/
def noFacetSet (v : Var) : Bool :=
  !v.bset && !v.iset && !v.dset && !v.sset && !v.rset

/-- The process-wide shared state anchored in `filebench_shm`: the three
registries, a fresh-id counter for allocation identity, the allocation
event counter, and the shutdown flag (`filebench_shutdown` called). -/
structure FbState where
  locList : List Var
  varList : List Var
  specialList : List Var
  nextId : Nat
  ticks : Nat
  term : Bool
deriving DecidableEq

/-- One allocation event against the arena oracle `A` (ipc_malloc,
ipc_stralloc, or randdist_alloc): succeeds iff the oracle says so at the
current event index. -/
def allocStep (A : Nat → Bool) (s : FbState) : Bool × FbState :=
  (A s.ticks, { s with ticks := s.ticks + 1 })

/-- An arena that never runs out of memory. -/
def allocOk : Nat → Bool := fun _ => true

/-- First variable in a registry list whose name matches exactly
(the head-to-tail strcmp scan). -/
def findByName (l : List Var) (name : String) : Option Var :=
  l.find? (fun v => v.name == name)

/-- Mutation through a pointer obtained from a head-to-tail name scan:
replace the first name match in the list. -/
def updateFirstByName (l : List Var) (name : String) (f : Var → Var) :
    List Var :=
  match l with
  | [] => []
  | v :: rest =>
    if v.name == name then f v :: rest
    else v :: updateFirstByName rest name f

/-- A zero-valued variable as produced by `memset` plus the type and the
interned name in var_alloc_cmn. -/
def newVar (id : Nat) (name : String) (scope : VarScope) : Var :=
  { id := id, name := name, scope := scope,
    bset := false, iset := false, dset := false, sset := false,
    rset := false, boolean := false, integer := 0, dblflt := 0,
    string := none, randptr := none }

/-- var_alloc_cmn (vars.c:340): ipc_malloc the var, ipc_stralloc the name
(either failure returns NULL with the var unlinked), then link it: local
vars are prepended at the head of the local list, normal/random vars are
appended at the tail of the global list, special vars at the tail of the
special list. -/
def var_alloc_cmn (A : Nat → Bool) (s : FbState) (name : String)
    (scope : VarScope) : Option Var × FbState :=
  let m := allocStep A s
  if !m.1 then (none, m.2)
  else
    let m2 := allocStep A m.2
    if !m2.1 then (none, m2.2)
    else
      let v := newVar m2.2.nextId name scope
      let s3 := { m2.2 with nextId := m2.2.nextId + 1 }
      match scope with
      | VarScope.loc => (some v, { s3 with locList := v :: s3.locList })
      | VarScope.special =>
        (some v, { s3 with specialList := s3.specialList ++ [v] })
      | VarScope.normal => (some v, { s3 with varList := s3.varList ++ [v] })
      | VarScope.random => (some v, { s3 with varList := s3.varList ++ [v] })

/-- var_alloc (vars.c:396). -/
def var_alloc (A : Nat → Bool) (s : FbState) (name : String) :
    Option Var × FbState :=
  var_alloc_cmn A s name VarScope.normal

/-- var_alloc_special (vars.c:402). -/
def var_alloc_special (A : Nat → Bool) (s : FbState) (name : String) :
    Option Var × FbState :=
  var_alloc_cmn A s name VarScope.special

/-- var_find (vars.c:414): scan the local list head-to-tail, then the
global list; first exact name match wins; the special list is not
searched. -/
def var_find (s : FbState) (name : String) : Option Var :=
  match findByName s.locList name with
  | some v => some v
  | none => findByName s.varList name

/-- var_find_list_only (vars.c:435). -/
def var_find_list_only (name : String) (varList : List Var) : Option Var :=
  findByName varList name

/-- Mutation through the pointer returned by var_find: the first local
match if one exists, otherwise the first global match. -/
def setFoundVar (s : FbState) (name : String) (f : Var → Var) : FbState :=
  if (findByName s.locList name).isSome then
    { s with locList := updateFirstByName s.locList name f }
  else
    { s with varList := updateFirstByName s.varList name f }

/-- var_find_alloc (vars.c:452): NULL name is rejected; one leading sigil
character is stripped; find, else allocate a new normal (global) var. -/
def var_find_alloc (A : Nat → Bool) (s : FbState) (name : Option String) :
    Option Var × FbState :=
  match name with
  | none => (none, s)
  | some nm =>
    let n := nm.drop 1
    match var_find s n with
    | some v => (some v, s)
    | none => var_alloc A s n

/-- var_assign_boolean (vars.c:473): find-or-allocate, reject a
random-scoped target with -1 before touching it, else set the boolean
facet and return 0. -/
def var_assign_boolean (A : Nat → Bool) (s : FbState) (name : String)
    (b : Bool) : Int × FbState :=
  let r := var_find_alloc A s (some name)
  match r.1 with
  | none => (-1, r.2)
  | some v =>
    if v.scope == VarScope.random then (-1, r.2)
    else (0, setFoundVar r.2 (name.drop 1) (fun w => VAR_SET_BOOL w b))

/-- var_assign_integer (vars.c:495). -/
def var_assign_integer (A : Nat → Bool) (s : FbState) (name : String)
    (i : Nat) : Int × FbState :=
  let r := var_find_alloc A s (some name)
  match r.1 with
  | none => (-1, r.2)
  | some v =>
    if v.scope == VarScope.random then (-1, r.2)
    else (0, setFoundVar r.2 (name.drop 1) (fun w => VAR_SET_INT w i))

/-- var_assign_string (vars.c:771): strip the sigil, find else allocate,
reject a random-scoped target with -1, then ipc_stralloc the text (failure
is -1) and set the string facet. -/
def var_assign_string (A : Nat → Bool) (s : FbState) (name : String)
    (txt : String) : Int × FbState :=
  let n := name.drop 1
  let r :=
    match var_find s n with
    | some v => (some v, s)
    | none => var_alloc A s n
  match r.1 with
  | none => (-1, r.2)
  | some v =>
    if v.scope == VarScope.random then (-1, r.2)
    else
      let m := allocStep A r.2
      if !m.1 then (-1, m.2)
      else (0, setFoundVar m.2 n (fun w => VAR_SET_STR w txt))

/-- var_find_randvar (vars.c:524): strip the sigil, find; the variable
must be random-scoped with its distribution attached, otherwise the
"not random" failure returns NULL. -/
def var_find_randvar (s : FbState) (name : String) : Option Var :=
  let n := name.drop 1
  match var_find s n with
  | none => none
  | some v =>
    if v.scope != VarScope.random || !v.rset then none
    else some v

/-- Modelled from the spec: randdist_alloc, the external
`new_distribution()` provider (not under src/).  Allocates from the shared
arena; a fresh distribution starts with nothing configured (family not yet
set, so the uninitialized family tag). -/
def randdist_alloc (A : Nat → Bool) (s : FbState) :
    Option RandDist × FbState :=
  let m := allocStep A s
  if !m.1 then (none, m.2)
  else
    (some { family := RandFamily.other, srcGen := false, rndVar := none,
            sample := 0 }, m.2)

/-- var_define_randvar (vars.c:553): strip the sigil; fail with NULL if
the name already exists; allocate a random-scoped variable (it is linked
into the global list by var_alloc_cmn); then allocate the distribution
object — if that fails, return NULL with the variable left linked;
otherwise attach the distribution (back link plus VAR_SET_RAND). -/
def var_define_randvar (A : Nat → Bool) (s : FbState) (name : String) :
    Option Var × FbState :=
  let n := name.drop 1
  if (var_find s n).isSome then (none, s)
  else
    let r := var_alloc_cmn A s n VarScope.random
    match r.1 with
    | none => (none, r.2)
    | some v =>
      let rr := randdist_alloc A r.2
      match rr.1 with
      | none => (none, rr.2)
      | some rd =>
        let rd1 := { rd with rndVar := some v.id }
        let v1 := VAR_SET_RAND v rd1
        (some v1, setFoundVar rr.2 n (fun _ => v1))

/-- Attribute value descriptors (avd_t): the `avd_type` tag together with
the `avd_val` union member it selects.  The VARVAL variants hold a pointer
into a variable's facet, modelled as the owning variable's id (none models
a null pointer); AVD_RANDVAR holds the distribution pointer itself. -/
inductive Avd
  | invalid
  | valBool (b : Bool)
  | varvalBool (p : Option Nat)
  | valInt (n : Nat)
  | varvalInt (p : Option Nat)
  | valStr (s : Option String)
  | varvalStr (p : Option Nat)
  | valDbl (d : ℚ)
  | varvalDbl (p : Option Nat)
  | randvar (r : Option RandDist)
deriving DecidableEq

/-- avd_alloc_var_ptr (vars.c:294): allocate the avd (ipc_malloc), then
dispatch on (var_type & VAR_TYPE_SET_MASK) — each case arm is a single
set-flag bit, so it fires only when exactly that facet flag is set; any
other flag combination (none set, or several set) hits the default arm,
which logs "Illegal variable type" and returns NULL. -/
def avd_alloc_var_ptr (A : Nat → Bool) (s : FbState) (v? : Option Var) :
    Option Avd × FbState :=
  match v? with
  | none => (none, s)
  | some v =>
    let m := allocStep A s
    if !m.1 then (none, m.2)
    else
      if v.bset && !v.iset && !v.sset && !v.dset && !v.rset then
        (some (Avd.varvalBool (some v.id)), m.2)
      else if !v.bset && v.iset && !v.sset && !v.dset && !v.rset then
        (some (Avd.varvalInt (some v.id)), m.2)
      else if !v.bset && !v.iset && v.sset && !v.dset && !v.rset then
        (some (Avd.varvalStr (some v.id)), m.2)
      else if !v.bset && !v.iset && !v.sset && v.dset && !v.rset then
        (some (Avd.varvalDbl (some v.id)), m.2)
      else if !v.bset && !v.iset && !v.sset && !v.dset && v.rset then
        (some (Avd.randvar v.randptr), m.2)
      else (none, m.2)

/-- Modelled from the spec: the dispatch table of var_find_internal
(vars.c:945).  The statistics / event-rate / date / script / host
providers and their reserved names live in headers and modules not under
src/; they are collapsed into one external lookup function that receives
the special variable and the bracket-stripped name and returns a populated
variable or none. -/
structure Providers where
  internalLookup : Var → String → Option Var

/-- var_find_internal (vars.c:945): the name (after the leading sigil
position occupied by the opening bracket) must end in a closing brace;
the bracket-stripped remainder is dispatched to the external providers. -/
def var_find_internal (P : Providers) (v : Var) : Option Var :=
  let n := v.name.drop 1
  if n.takeRight 1 != "\x7d" then none
  else P.internalLookup v (n.dropRight 1)

/-- var_find_environment (vars.c:977): the name must end in a closing
paren; strip it and query the process environment (getenv, passed in as a
parameter).  On a hit the retrieved text is stored into the variable's
string facet — note this happens on every call, the value is not
cached — and the variable is returned; on a miss NULL. -/
def var_find_environment (genv : String → Option String) (v : Var) :
    Option Var :=
  let n := v.name.drop 1
  if n.takeRight 1 != ")" then none
  else
    match genv (n.dropRight 1) with
    | some txt => some (VAR_SET_STR v txt)
    | none => none

/-- var_find_special (vars.c:1003): scan the special list for the name;
if absent, allocate a new special variable (appended at the tail,
regardless of the later resolution outcome).  Then dispatch on the first
character: an opening brace goes to the internal providers, an opening
paren to the environment lookup, anything else resolves to none.  The
in-place mutation of the special variable performed by the resolvers is
written back to the first name match in the special list. -/
def var_find_special (A : Nat → Bool) (P : Providers)
    (genv : String → Option String) (s : FbState) (name : String) :
    Option Var × FbState :=
  let r :=
    match findByName s.specialList name with
    | some v => (some v, s)
    | none => var_alloc_special A s name
  match r.1 with
  | none => (none, r.2)
  | some v =>
    if name.take 1 = "\x7b" then
      match var_find_internal P v with
      | some w =>
        (some w, { r.2 with
          specialList := updateFirstByName r.2.specialList name (fun _ => w) })
      | none => (none, r.2)
    else if name.take 1 = "(" then
      match var_find_environment genv v with
      | some w =>
        (some w, { r.2 with
          specialList := updateFirstByName r.2.specialList name (fun _ => w) })
      | none => (none, r.2)
    else (none, r.2)

/-- var_ref_attr (vars.c:596): strip the sigil; resolve by var_find, then
var_find_special, then allocation as a new global; if all three fail
(possible only when the arena allocation itself fails), log and call
filebench_shutdown(1) — modelled by raising the `term` flag.  Otherwise
wrap the resolved variable with avd_alloc_var_ptr. -/
def var_ref_attr (A : Nat → Bool) (P : Providers)
    (genv : String → Option String) (s : FbState) (name : String) :
    Option Avd × FbState :=
  let n := name.drop 1
  let r :=
    match var_find s n with
    | some v => (some v, s)
    | none =>
      let rs := var_find_special A P genv s n
      match rs.1 with
      | some v => (some v, rs.2)
      | none => var_alloc A rs.2 n
  match r.1 with
  | none => (none, { r.2 with term := true })
  | some v => avd_alloc_var_ptr A r.2 (some v)

/-- The fixed label fb_stralloc'd for each random-distribution family in
__var_to_string (including the source's spelling of the uninitialized
label). -/
def familyLabel (f : RandFamily) : String :=
  match f with
  | RandFamily.uniform => "uniform random var"
  | RandFamily.gammaFam => "gamma random var"
  | RandFamily.table => "tabular random var"
  | RandFamily.other => "unitialized random var"

/-- __var_to_string (vars.c:622): a random-scoped variable yields its
family label (the source dereferences the distribution handle
unconditionally there; the none branch models the unset family tag);
else a string facet whose pointer is non-null is returned as-is (even
empty text); else a set boolean facet yields "true"/"false"; else a set
integer facet yields its decimal text; else "No default". -/
def var_to_string_core (v : Var) : String :=
  if v.scope == VarScope.random then
    match v.randptr with
    | some rd => familyLabel rd.family
    | none => familyLabel RandFamily.other
  else if v.sset && v.string.isSome then v.string.getD ""
  else if v.bset then (if v.boolean then "true" else "false")
  else if v.iset then toString v.integer
  else "No default"

/-- var_copy (vars.c:744): copy every set facet of src into dst, in order
boolean, integer, double, string; the string copy ipc_strallocs fresh
text, and that allocation failing fails the whole copy with -1.  The
destination's name and scope are never touched. -/
def var_copy (A : Nat → Bool) (s : FbState) (dst src : Var) :
    Int × Var × FbState :=
  let d1 := if src.bset then VAR_SET_BOOL dst src.boolean else dst
  let d2 := if src.iset then VAR_SET_INT d1 src.integer else d1
  let d3 := if src.dset then VAR_SET_DBL d2 src.dblflt else d2
  if src.sset then
    let m := allocStep A s
    if !m.1 then (-1, d3, m.2)
    else (0, VAR_SET_STR d3 (src.string.getD ""), m.2)
  else (0, d3, s)

/-- var_lvar_alloc_local (vars.c:811): strip the sigil only when present,
then allocate a local variable (prepended at the head of the local
list). -/
def var_lvar_alloc_local (A : Nat → Bool) (s : FbState) (name : String) :
    Option Var × FbState :=
  let n := if name.take 1 = "$" then name.drop 1 else name
  var_alloc_cmn A s n VarScope.loc

/-- Write back a mutation of the freshly prepended local variable. -/
def setLocalHead (s : FbState) (d : Var) : FbState :=
  match s.locList with
  | [] => s
  | _ :: rest => { s with locList := d :: rest }

/-- C truncation of a double to uint64_t (defined only for non-negative
values in the source's use). -/
def ratTruncToNat (q : ℚ) : Nat := q.floor.toNat

/-- var_lvar_assign_var (vars.c:827): find the source variable, allocate a
fresh local destination, then copy exactly one facet — the first set one
in the order boolean, integer, string, double, random.  The string copy
ipc_strallocs (failure returns NULL with the local still linked); a set
double facet is stored through VAR_SET_INT, i.e. truncated into the
integer facet; a random source has its distribution pointer shared. -/
def var_lvar_assign_var (A : Nat → Bool) (s : FbState)
    (name srcName : String) : Option Var × FbState :=
  let sn := srcName.drop 1
  match var_find s sn with
  | none => (none, s)
  | some src =>
    let r := var_lvar_alloc_local A s name
    match r.1 with
    | none => (none, r.2)
    | some dst =>
      if src.bset then
        let d := VAR_SET_BOOL dst src.boolean
        (some d, setLocalHead r.2 d)
      else if src.iset then
        let d := VAR_SET_INT dst src.integer
        (some d, setLocalHead r.2 d)
      else if src.sset then
        let m := allocStep A r.2
        if !m.1 then (none, m.2)
        else
          let d := VAR_SET_STR dst (src.string.getD "")
          (some d, setLocalHead m.2 d)
      else if src.dset then
        let d := VAR_SET_INT dst (ratTruncToNat src.dblflt)
        (some d, setLocalHead r.2 d)
      else if src.rset then
        let d := { dst with randptr := src.randptr, rset := true }
        (some d, setLocalHead r.2 d)
      else (some dst, r.2)

/-- var_update_comp_lvars (vars.c:1056): find the same-named prototype
local variable (no fallback); absent prototype leaves the new local
untouched; a new local with any facet already set is untouched; otherwise
var_copy every set facet of the prototype into it (the copy's return code
is discarded).  The master list parameter is unused, as in the source. -/
def var_update_comp_lvars (A : Nat → Bool) (s : FbState) (newlvar : Var)
    (protoCompVars : List Var) (mstrLvars : List Var) : Var × FbState :=
  match var_find_list_only newlvar.name protoCompVars with
  | none => (newlvar, s)
  | some protoLvar =>
    if noFacetSet newlvar then
      let c := var_copy A s newlvar protoLvar
      (c.2.1, c.2.2)
    else (newlvar, s)

/-- Dereference the integer facet through a VARVAL pointer (the pointed-to
variable always exists while the registries only grow). -/
def derefVar (s : FbState) (id : Nat) : Option Var :=
  (s.locList ++ s.varList ++ s.specialList).find? (fun v => v.id == id)

/-- avd_get_int (vars.c:102): total; the second component records whether
the type-mismatch error was logged.  A null avd returns 0 silently;
AVD_VAL_INT, AVD_VARVAL_INT (null pointer reads as 0) and AVD_RANDVAR
(one fresh sample, truncated to uint64) are the matching variants; every
other variant logs and returns 0. -/
def avd_get_int (s : FbState) (a? : Option Avd) : Nat × Bool :=
  match a? with
  | none => (0, false)
  | some a =>
    match a with
    | Avd.valInt n => (n, false)
    | Avd.varvalInt p =>
      match p with
      | some id =>
        (match derefVar s id with
         | some v => (v.integer, false)
         | none => (0, false))
      | none => (0, false)
    | Avd.randvar r =>
      match r with
      | some rd => (ratTruncToNat rd.sample, false)
      | none => (0, false)
    | _ => (0, true)

/-- avd_get_dbl (vars.c:133): as avd_get_int, additionally widening the
integer variants and accepting the double variants. -/
def avd_get_dbl (s : FbState) (a? : Option Avd) : ℚ × Bool :=
  match a? with
  | none => (0, false)
  | some a =>
    match a with
    | Avd.valInt n => ((n : ℚ), false)
    | Avd.valDbl d => (d, false)
    | Avd.varvalInt p =>
      match p with
      | some id =>
        (match derefVar s id with
         | some v => ((v.integer : ℚ), false)
         | none => (0, false))
      | none => (0, false)
    | Avd.varvalDbl p =>
      match p with
      | some id =>
        (match derefVar s id with
         | some v => (v.dblflt, false)
         | none => (0, false))
      | none => (0, false)
    | Avd.randvar r =>
      match r with
      | some rd => (rd.sample, false)
      | none => (0, false)
    | _ => (0, true)

/-- avd_get_bool (vars.c:172): boolean variants plus numeric truthiness of
the integer variants; everything else logs and returns false. -/
def avd_get_bool (s : FbState) (a? : Option Avd) : Bool × Bool :=
  match a? with
  | none => (false, false)
  | some a =>
    match a with
    | Avd.valBool b => (b, false)
    | Avd.varvalBool p =>
      match p with
      | some id =>
        (match derefVar s id with
         | some v => (v.boolean, false)
         | none => (false, false))
      | none => (false, false)
    | Avd.valInt n => (decide (n ≠ 0), false)
    | Avd.varvalInt p =>
      match p with
      | some id =>
        (match derefVar s id with
         | some v => (decide (v.integer ≠ 0), false)
         | none => (false, false))
      | none => (false, false)
    | _ => (false, true)

/-- avd_get_str (vars.c:205): only the two string variants succeed; every
other variant logs and returns NULL — there is no numeric-to-string
coercion on this path. -/
def avd_get_str (s : FbState) (a? : Option Avd) : Option String × Bool :=
  match a? with
  | none => (none, false)
  | some a =>
    match a with
    | Avd.valStr t => (t, false)
    | Avd.varvalStr p =>
      match p with
      | some id =>
        (match derefVar s id with
         | some v => (v.string, false)
         | none => (none, false))
      | none => (none, false)
    | _ => (none, true)

/-- The matching variants of avd_get_int per the source's case arms. -/
def intMatching : Avd → Bool
  | Avd.valInt _ => true
  | Avd.varvalInt _ => true
  | Avd.randvar _ => true
  | _ => false

/-- The matching variants of avd_get_dbl per the source's case arms. -/
def dblMatching : Avd → Bool
  | Avd.valInt _ => true
  | Avd.valDbl _ => true
  | Avd.varvalInt _ => true
  | Avd.varvalDbl _ => true
  | Avd.randvar _ => true
  | _ => false

/-- The matching variants of avd_get_bool per the source's case arms. -/
def boolMatching : Avd → Bool
  | Avd.valBool _ => true
  | Avd.varvalBool _ => true
  | Avd.valInt _ => true
  | Avd.varvalInt _ => true
  | _ => false

/-- The matching variants of avd_get_str per the source's case arms. -/
def strMatching : Avd → Bool
  | Avd.valStr _ => true
  | Avd.varvalStr _ => true
  | _ => false

/-- The freshly initialized shared state: three empty registries. -/
def emptyState : FbState :=
  { locList := [], varList := [], specialList := [], nextId := 0,
    ticks := 0, term := false }

/-- A provider table with nothing registered. -/
def noProviders : Providers := { internalLookup := fun _ _ => none }

/-- An empty process environment. -/
def noEnv : String → Option String := fun _ => none

/-- An environment in which PATH is bound to "A". -/
def envA : String → Option String :=
  fun n => if n = "PATH" then some "A" else none

/-- The same environment after PATH changed to "B". -/
def envB : String → Option String :=
  fun n => if n = "PATH" then some "B" else none

/-- A configured uniform distribution object. -/
def rdUnif : RandDist :=
  { family := RandFamily.uniform, srcGen := false, rndVar := some 0,
    sample := 0 }

/-- A random-scoped variable named r with its distribution attached. -/
def rvar : Var := VAR_SET_RAND (newVar 0 "r" VarScope.random) rdUnif

/-- A state whose global list holds the random variable r. -/
def sRand : FbState := { emptyState with varList := [rvar], nextId := 1 }

/-- A global variable named src with both the boolean and the integer
facets set. -/
def srcBI : Var :=
  VAR_SET_INT (VAR_SET_BOOL (newVar 0 "src" VarScope.normal) true) 42

/-- A state whose global list holds srcBI. -/
def sC6 : FbState := { emptyState with varList := [srcBI], nextId := 1 }

/-- A global variable named srcd with only the double facet set. -/
def srcD : Var := VAR_SET_DBL (newVar 0 "srcd" VarScope.normal) (7 : ℚ)

/-- A state whose global list holds srcD. -/
def sC6d : FbState := { emptyState with varList := [srcD], nextId := 1 }

/-- A non-random variable with the boolean facet set to true and the
string facet set to empty text. -/
def c8var : Var :=
  VAR_SET_STR (VAR_SET_BOOL (newVar 0 "v" VarScope.normal) true) ""

/-- An arena that satisfies the first two allocation requests and then
runs out of memory. -/
def twoThenFail : Nat → Bool := fun k => decide (k < 2)

/-- An arena that is already exhausted. -/
def neverAlloc : Nat → Bool := fun _ => false

lemma findByName_append (l₁ l₂ : List Var) (name : String) :
    findByName (l₁ ++ l₂) name =
      (findByName l₁ name).or (findByName l₂ name) := by
  simp [findByName, List.find?_append]

lemma findByName_cons_self (v : Var) (l : List Var) (h : v.name = name) :
    findByName (v :: l) name = some v := by
  simp [findByName, List.find?_cons_of_pos, h]

lemma var_alloc_cmn_inv {A : Nat → Bool} {s : FbState} {name : String}
    {scope : VarScope} {v : Var} {s' : FbState}
    (h : var_alloc_cmn A s name scope = (some v, s')) :
    v = newVar s.nextId name scope ∧
    s'.locList =
      (match scope with
       | VarScope.loc => v :: s.locList
       | _ => s.locList) ∧
    s'.varList =
      (match scope with
       | VarScope.normal => s.varList ++ [v]
       | VarScope.random => s.varList ++ [v]
       | _ => s.varList) ∧
    s'.specialList =
      (match scope with
       | VarScope.special => s.specialList ++ [v]
       | _ => s.specialList) ∧
    s'.term = s.term ∧ s'.nextId = s.nextId + 1 ∧ s'.ticks = s.ticks + 2 := by
  cases h1 : A s.ticks with
  | false => simp [var_alloc_cmn, allocStep, h1] at h
  | true =>
    cases h2 : A (s.ticks + 1) with
    | false => simp [var_alloc_cmn, allocStep, h1, h2] at h
    | true =>
      cases scope <;>
        · simp [var_alloc_cmn, allocStep, h1, h2] at h
          obtain ⟨hv, hs⟩ := h
          subst hv
          subst hs
          simp

/-- C1 (code_bug): on a fresh name with a working arena, var_ref_attr
resolves by allocating a brand-new global variable with no facet set —
the case the claim (and the source's own comment on var_ref_attr) says
returns an AVD referencing that variable — yet avd_alloc_var_ptr hits its
default arm, logs "Illegal variable type", and returns NULL, so no AVD is
produced (and the process is not shut down, since resolution itself
succeeded). -/
theorem ref_attr_unset_global_returns_no_avd :
    (var_ref_attr allocOk noProviders noEnv emptyState "$x").1 = none ∧
    (var_ref_attr allocOk noProviders noEnv emptyState "$x").2.term = false ∧
    var_find (var_ref_attr allocOk noProviders noEnv emptyState "$x").2 "x" =
      some (newVar 1 "x" VarScope.normal) := by
  refine ⟨?_, ?_, ?_⟩ <;> decide

/-- C3: the four typed AVD readers are total: a null descriptor yields
the type's zero value with no error logged, while a descriptor of any
variant outside the reader's matching set (including the uninitialized
variant) logs an error and yields the same zero value; in particular
avd_get_str yields none for every non-string variant (no numeric-to-string
coercion). -/
theorem avd_readers_total_zero_defaults :
    (∀ s : FbState, avd_get_int s none = (0, false)) ∧
    (∀ s : FbState, avd_get_dbl s none = (0, false)) ∧
    (∀ s : FbState, avd_get_bool s none = (false, false)) ∧
    (∀ s : FbState, avd_get_str s none = (none, false)) ∧
    (∀ (s : FbState) (a : Avd), intMatching a = false →
      avd_get_int s (some a) = (0, true)) ∧
    (∀ (s : FbState) (a : Avd), dblMatching a = false →
      avd_get_dbl s (some a) = (0, true)) ∧
    (∀ (s : FbState) (a : Avd), boolMatching a = false →
      avd_get_bool s (some a) = (false, true)) ∧
    (∀ (s : FbState) (a : Avd), strMatching a = false →
      avd_get_str s (some a) = (none, true)) := by
  refine ⟨fun s => rfl, fun s => rfl, fun s => rfl, fun s => rfl,
    ?_, ?_, ?_, ?_⟩ <;>
    · intro s a h
      cases a <;>
        simp_all [intMatching, dblMatching, boolMatching, strMatching,
          avd_get_int, avd_get_dbl, avd_get_bool, avd_get_str]

/-- Witness for C3: concrete mismatching reads. -/
theorem avd_readers_total_zero_defaults_witness :
    avd_get_int emptyState (some Avd.invalid) = (0, true) ∧
    avd_get_dbl emptyState (some (Avd.valStr (some "x"))) = (0, true) ∧
    avd_get_bool emptyState (some (Avd.randvar none)) = (false, true) ∧
    avd_get_str emptyState (some (Avd.valInt 7)) = (none, true) :=
  ⟨avd_readers_total_zero_defaults.2.2.2.2.1 emptyState Avd.invalid rfl,
   avd_readers_total_zero_defaults.2.2.2.2.2.1 emptyState
     (Avd.valStr (some "x")) rfl,
   avd_readers_total_zero_defaults.2.2.2.2.2.2.1 emptyState
     (Avd.randvar none) rfl,
   avd_readers_total_zero_defaults.2.2.2.2.2.2.2 emptyState
     (Avd.valInt 7) rfl⟩

/-- C4: var_find searches the local registry first (first match wins) and
falls back to the global registry; a freshly allocated local (prepended at
the head) immediately shadows every older same-named variable; allocating
a new same-named global (appended at the tail) never displaces the
variable var_find already returned, and a global allocated when no match
existed anywhere becomes the one var_find returns. -/
theorem var_find_shadowing_and_insertion_order :
    (∀ (s : FbState) (name : String) (v : Var),
      findByName s.locList name = some v → var_find s name = some v) ∧
    (∀ (A : Nat → Bool) (s : FbState) (name : String) (v : Var)
        (s' : FbState),
      var_alloc_cmn A s name VarScope.loc = (some v, s') →
      var_find s' name = some v) ∧
    (∀ (A : Nat → Bool) (s : FbState) (name : String) (w v : Var)
        (s' : FbState),
      var_find s name = some w →
      var_alloc_cmn A s name VarScope.normal = (some v, s') →
      var_find s' name = some w) ∧
    (∀ (A : Nat → Bool) (s : FbState) (name : String) (v : Var)
        (s' : FbState),
      var_find s name = none →
      var_alloc_cmn A s name VarScope.normal = (some v, s') →
      var_find s' name = some v) := by
  refine ⟨?_, ?_, ?_, ?_⟩
  · intro s name v h
    simp [var_find, h]
  · intro A s name v s' h
    obtain ⟨hv, hloc, -, -, -, -, -⟩ := var_alloc_cmn_inv h
    have hn : v.name = name := by subst hv; rfl
    simp only [var_find, hloc]
    rw [findByName_cons_self v s.locList hn]
  · intro A s name w v s' hf h
    obtain ⟨hv, hloc, hvar, -, -, -, -⟩ := var_alloc_cmn_inv h
    simp only [var_find, hloc, hvar, findByName_append] at hf ⊢
    cases hl : findByName s.locList name with
    | some u => simp only [hl] at hf ⊢; exact hf
    | none =>
      simp only [hl] at hf ⊢
      simp [hf]
  · intro A s name v s' hf h
    obtain ⟨hv, hloc, hvar, -, -, -, -⟩ := var_alloc_cmn_inv h
    have hn : v.name = name := by subst hv; rfl
    simp only [var_find, hloc, hvar, findByName_append] at hf ⊢
    cases hl : findByName s.locList name with
    | some u => simp only [hl] at hf; simp at hf
    | none =>
      simp only [hl] at hf ⊢
      rw [hf]
      have : findByName [v] name = some v := by
        simpa using findByName_cons_self v [] hn
      simp [this]

/-- Witness for C4: a concrete local allocation is immediately returned by
var_find. -/
theorem var_find_shadowing_witness :
    var_find (var_alloc_cmn allocOk emptyState "x" VarScope.loc).2 "x" =
      some (newVar 0 "x" VarScope.loc) :=
  var_find_shadowing_and_insertion_order.2.1 allocOk emptyState "x"
    (newVar 0 "x" VarScope.loc)
    (var_alloc_cmn allocOk emptyState "x" VarScope.loc).2 (by decide)

/-- C5: every direct value assignment to a random-scoped variable fails
with the -1 sentinel and returns the state completely unchanged (so every
facet and the distribution handle of the variable are untouched), and
var_define_randvar on a name that var_find already resolves fails with the
none sentinel, also leaving the state unchanged. -/
theorem random_var_write_rejection :
    (∀ (A : Nat → Bool) (s : FbState) (name : String) (b : Bool) (v : Var),
      var_find s (name.drop 1) = some v → v.scope = VarScope.random →
      var_assign_boolean A s name b = (-1, s)) ∧
    (∀ (A : Nat → Bool) (s : FbState) (name : String) (i : Nat) (v : Var),
      var_find s (name.drop 1) = some v → v.scope = VarScope.random →
      var_assign_integer A s name i = (-1, s)) ∧
    (∀ (A : Nat → Bool) (s : FbState) (name txt : String) (v : Var),
      var_find s (name.drop 1) = some v → v.scope = VarScope.random →
      var_assign_string A s name txt = (-1, s)) ∧
    (∀ (A : Nat → Bool) (s : FbState) (name : String) (v : Var),
      var_find s (name.drop 1) = some v →
      var_define_randvar A s name = (none, s)) := by
  refine ⟨?_, ?_, ?_, ?_⟩
  · intro A s name b v hf hsc
    simp [var_assign_boolean, var_find_alloc, hf, hsc]
  · intro A s name i v hf hsc
    simp [var_assign_integer, var_find_alloc, hf, hsc]
  · intro A s name txt v hf hsc
    simp [var_assign_string, hf, hsc]
  · intro A s name v hf
    simp [var_define_randvar, hf]

/-- Witness for C5: concrete rejected writes against the random variable
r, with the state (hence r's facets and distribution handle) unchanged. -/
theorem random_var_write_rejection_witness :
    var_assign_integer allocOk sRand "$r" 5 = (-1, sRand) ∧
    var_assign_boolean allocOk sRand "$r" true = (-1, sRand) ∧
    var_assign_string allocOk sRand "$r" "t" = (-1, sRand) ∧
    var_define_randvar allocOk sRand "$r" = (none, sRand) :=
  ⟨random_var_write_rejection.2.1 allocOk sRand "$r" 5 rvar (by decide)
      (by decide),
   random_var_write_rejection.1 allocOk sRand "$r" true rvar (by decide)
      (by decide),
   random_var_write_rejection.2.2.1 allocOk sRand "$r" "t" rvar (by decide)
      (by decide),
   random_var_write_rejection.2.2.2 allocOk sRand "$r" rvar (by decide)⟩

lemma findByName_none (l : List Var) (name : String)
    (h : ∀ w ∈ l, w.name ≠ name) : findByName l name = none := by
  rw [findByName, List.find?_eq_none]
  intro w hw
  simpa using h w hw

lemma findByName_append_single (l : List Var) (v : Var) (name : String)
    (h : ∀ w ∈ l, w.name ≠ name) (hv : v.name = name) :
    findByName (l ++ [v]) name = some v := by
  rw [findByName_append, findByName_none l name h]
  simpa using findByName_cons_self v [] hv

lemma updateFirstByName_append_single (l : List Var) (v : Var)
    (name : String) (h : ∀ w ∈ l, w.name ≠ name) (hv : v.name = name)
    (f : Var → Var) :
    updateFirstByName (l ++ [v]) name f = l ++ [f v] := by
  induction l with
  | nil => simp [updateFirstByName, hv]
  | cons a l ih =>
    have ha : a.name ≠ name := h a (by simp)
    have ih' := ih (fun w hw => h w (by simp [hw]))
    simp only [List.cons_append, updateFirstByName]
    rw [if_neg (by simpa using ha)]
    show a :: updateFirstByName (l ++ [v]) name f = a :: (l ++ [f v])
    rw [ih']

lemma var_alloc_special_allocOk (s : FbState) (name : String) :
    var_alloc_special allocOk s name =
      (some (newVar s.nextId name VarScope.special),
       { s with
          ticks := s.ticks + 2
          nextId := s.nextId + 1
          specialList :=
            s.specialList ++ [newVar s.nextId name VarScope.special] }) := rfl

/-- C2 (counterexample): with PATH bound to "A", the first special lookup
of (PATH) yields the value "A"; after the environment changes PATH to "B",
the second lookup of the same name returns the same cached Variable object
(same identity) but with the value "B" — not the cached "A" the claim
promises. -/
theorem special_env_second_lookup_sees_new_value :
    ((var_find_special allocOk noProviders envA emptyState "(PATH)").1.map
        Var.string) = some (some "A") ∧
    ((var_find_special allocOk noProviders envB
        (var_find_special allocOk noProviders envA emptyState "(PATH)").2
        "(PATH)").1.map Var.string) = some (some "B") ∧
    ((var_find_special allocOk noProviders envB
        (var_find_special allocOk noProviders envA emptyState "(PATH)").2
        "(PATH)").1.map Var.string) ≠
      ((var_find_special allocOk noProviders envA emptyState
        "(PATH)").1.map Var.string) ∧
    ((var_find_special allocOk noProviders envB
        (var_find_special allocOk noProviders envA emptyState "(PATH)").2
        "(PATH)").1.map Var.id) =
      ((var_find_special allocOk noProviders envA emptyState "(PATH)").1.map
        Var.id) := by
  refine ⟨?_, ?_, ?_, ?_⟩ <;> decide

/-- C2 (amended): the first lookup of an environment-style special name
retrieves the environment value and stores it in the Special variable's
string facet; every subsequent lookup of the same name reuses the
identical cached Variable object (same identity, no new allocation) but
re-queries the environment and overwrites the string facet with the
current value, so a changed environment is reflected rather than the old
value being served. -/
theorem special_env_cached_var_requeried :
    ∀ (genv genv' : String → Option String) (P P' : Providers)
      (s : FbState) (name a b : String),
      (∀ w ∈ s.specialList, w.name ≠ name) →
      name.take 1 = "(" →
      (name.drop 1).takeRight 1 = ")" →
      genv ((name.drop 1).dropRight 1) = some a →
      genv' ((name.drop 1).dropRight 1) = some b →
      ∃ (v v' : Var) (s₁ s₂ : FbState),
        var_find_special allocOk P genv s name = (some v, s₁) ∧
        var_find_special allocOk P' genv' s₁ name = (some v', s₂) ∧
        v'.id = v.id ∧ v.string = some a ∧ v'.string = some b := by
  intro genv genv' P P' s name a b hns hp hr ha hb
  have h0 : findByName s.specialList name = none := findByName_none _ _ hns
  have hbrace : ¬ (name.take 1 = "\x7b") := by
    rw [hp]; decide
  have henv1 : var_find_environment genv
      (newVar s.nextId name VarScope.special) =
      some (VAR_SET_STR (newVar s.nextId name VarScope.special) a) := by
    simp [var_find_environment, newVar, hr, ha, VAR_SET_STR]
  have henv2 : var_find_environment genv'
      (VAR_SET_STR (newVar s.nextId name VarScope.special) a) =
      some (VAR_SET_STR (VAR_SET_STR (newVar s.nextId name VarScope.special)
        a) b) := by
    simp [var_find_environment, newVar, hr, hb, VAR_SET_STR]
  have hupd1 : updateFirstByName
      (s.specialList ++ [newVar s.nextId name VarScope.special]) name
      (fun _ => VAR_SET_STR (newVar s.nextId name VarScope.special) a) =
      s.specialList ++
        [VAR_SET_STR (newVar s.nextId name VarScope.special) a] :=
    updateFirstByName_append_single _ _ _ hns rfl _
  have hupd2 : updateFirstByName
      (s.specialList ++ [VAR_SET_STR (newVar s.nextId name VarScope.special)
        a]) name
      (fun _ => VAR_SET_STR (VAR_SET_STR (newVar s.nextId name
        VarScope.special) a) b) =
      s.specialList ++ [VAR_SET_STR (VAR_SET_STR (newVar s.nextId name
        VarScope.special) a) b] :=
    updateFirstByName_append_single _ _ _ hns rfl _
  have hfind1 : findByName
      (s.specialList ++ [VAR_SET_STR (newVar s.nextId name VarScope.special)
        a]) name =
      some (VAR_SET_STR (newVar s.nextId name VarScope.special) a) :=
    findByName_append_single _ _ _ hns rfl
  refine ⟨VAR_SET_STR (newVar s.nextId name VarScope.special) a,
    VAR_SET_STR (VAR_SET_STR (newVar s.nextId name VarScope.special) a) b,
    { s with
        ticks := s.ticks + 2
        nextId := s.nextId + 1
        specialList := s.specialList ++
          [VAR_SET_STR (newVar s.nextId name VarScope.special) a] },
    { s with
        ticks := s.ticks + 2
        nextId := s.nextId + 1
        specialList := s.specialList ++
          [VAR_SET_STR (VAR_SET_STR (newVar s.nextId name VarScope.special)
            a) b] },
    ?_, ?_, rfl, rfl, rfl⟩
  · simp [var_find_special, h0, var_alloc_special_allocOk, hp, henv1, hupd1]
  · simp [var_find_special, hfind1, hp, henv2, hupd2]

/-- Witness for C2's amended theorem: the concrete PATH scenario. -/
theorem special_env_cached_var_requeried_witness :
    ∃ (v v' : Var) (s₁ s₂ : FbState),
      var_find_special allocOk noProviders envA emptyState "(PATH)" =
        (some v, s₁) ∧
      var_find_special allocOk noProviders envB s₁ "(PATH)" =
        (some v', s₂) ∧
      v'.id = v.id ∧ v.string = some "A" ∧ v'.string = some "B" :=
  special_env_cached_var_requeried envA envB noProviders noProviders
    emptyState "(PATH)" "A" "B" (by simp [emptyState]) (by decide)
    (by decide) (by decide) (by decide)

/-- C6 (counterexample): the source variable srcBI has both its boolean
and integer facets set, yet the direct variable-to-variable copy statement
(var_lvar_assign_var) copies only the boolean facet into the new local:
the destination's integer facet stays unset — contradicting the claim
that direct copy statements use the same every-set-facet copy semantics
as var_copy.  With a double-only source, the double is not even copied
into the double facet but truncated into the integer facet. -/
theorem lvar_assign_var_not_every_facet :
    srcBI.bset = true ∧ srcBI.iset = true ∧
    ((var_lvar_assign_var allocOk sC6 "$d" "$src").1.map Var.bset) =
      some true ∧
    ((var_lvar_assign_var allocOk sC6 "$d" "$src").1.map Var.iset) =
      some false ∧
    srcD.dset = true ∧
    ((var_lvar_assign_var allocOk sC6d "$d" "$srcd").1.map Var.dset) =
      some false ∧
    ((var_lvar_assign_var allocOk sC6d "$d" "$srcd").1.map Var.iset) =
      some true ∧
    ((var_lvar_assign_var allocOk sC6d "$d" "$srcd").1.map Var.integer) =
      some 7 := by
  refine ⟨rfl, rfl, ?_, ?_, rfl, ?_, ?_, ?_⟩ <;> decide

/-- C6 (amended): var_copy copies every set facet of src into dst in the
order boolean, integer, double, string — the string copy is a fresh arena
allocation whose failure fails the whole copy with -1 — and it never
changes dst's name or scope; local-variable inheritance
(var_update_comp_lvars) uses exactly this copy.  Direct
variable-to-variable copy statements (var_lvar_assign_var), however, copy
only the first set facet in the order boolean, integer, string, double,
random, and a set double facet is stored truncated into the destination's
integer facet. -/
theorem var_copy_semantics_amended :
    (∀ (s : FbState) (dst src : Var),
      (var_copy allocOk s dst src).1 = 0 ∧
      (var_copy allocOk s dst src).2.1.name = dst.name ∧
      (var_copy allocOk s dst src).2.1.scope = dst.scope ∧
      (src.bset = true → (var_copy allocOk s dst src).2.1.bset = true ∧
        (var_copy allocOk s dst src).2.1.boolean = src.boolean) ∧
      (src.bset = false →
        (var_copy allocOk s dst src).2.1.bset = dst.bset ∧
        (var_copy allocOk s dst src).2.1.boolean = dst.boolean) ∧
      (src.iset = true → (var_copy allocOk s dst src).2.1.iset = true ∧
        (var_copy allocOk s dst src).2.1.integer = src.integer) ∧
      (src.iset = false →
        (var_copy allocOk s dst src).2.1.iset = dst.iset ∧
        (var_copy allocOk s dst src).2.1.integer = dst.integer) ∧
      (src.dset = true → (var_copy allocOk s dst src).2.1.dset = true ∧
        (var_copy allocOk s dst src).2.1.dblflt = src.dblflt) ∧
      (src.dset = false →
        (var_copy allocOk s dst src).2.1.dset = dst.dset ∧
        (var_copy allocOk s dst src).2.1.dblflt = dst.dblflt) ∧
      (src.sset = true → (var_copy allocOk s dst src).2.1.sset = true ∧
        (var_copy allocOk s dst src).2.1.string =
          some (src.string.getD "")) ∧
      (src.sset = false →
        (var_copy allocOk s dst src).2.1.sset = dst.sset ∧
        (var_copy allocOk s dst src).2.1.string = dst.string)) ∧
    (∀ (A : Nat → Bool) (s : FbState) (dst src : Var),
      src.sset = true → A s.ticks = false →
      (var_copy A s dst src).1 = -1) ∧
    (∀ (A : Nat → Bool) (s : FbState) (newlvar : Var)
        (protoCompVars mstr : List Var) (p : Var),
      var_find_list_only newlvar.name protoCompVars = some p →
      noFacetSet newlvar = true →
      var_update_comp_lvars A s newlvar protoCompVars mstr =
        ((var_copy A s newlvar p).2.1, (var_copy A s newlvar p).2.2)) ∧
    (∀ (s : FbState) (name srcName : String) (src : Var),
      var_find s (srcName.drop 1) = some src →
      (src.bset = true →
        ((var_lvar_assign_var allocOk s name srcName).1.map Var.bset) =
          some true ∧
        ((var_lvar_assign_var allocOk s name srcName).1.map Var.iset) =
          some false ∧
        ((var_lvar_assign_var allocOk s name srcName).1.map Var.sset) =
          some false ∧
        ((var_lvar_assign_var allocOk s name srcName).1.map Var.dset) =
          some false ∧
        ((var_lvar_assign_var allocOk s name srcName).1.map Var.rset) =
          some false) ∧
      (src.bset = false → src.iset = false → src.sset = false →
        src.dset = true →
        ((var_lvar_assign_var allocOk s name srcName).1.map Var.iset) =
          some true ∧
        ((var_lvar_assign_var allocOk s name srcName).1.map Var.integer) =
          some (ratTruncToNat src.dblflt) ∧
        ((var_lvar_assign_var allocOk s name srcName).1.map Var.dset) =
          some false)) := by
  refine ⟨?_, ?_, ?_, ?_⟩
  · intro s dst src
    cases hb : src.bset <;> cases hi : src.iset <;>
      cases hd : src.dset <;> cases hs : src.sset <;>
      simp [var_copy, allocStep, allocOk, hb, hi, hd, hs,
        VAR_SET_BOOL, VAR_SET_INT, VAR_SET_DBL, VAR_SET_STR]
  · intro A s dst src hs hA
    simp [var_copy, allocStep, hs, hA]
  · intro A s newlvar protoCompVars mstr p hfind hset
    simp [var_update_comp_lvars, hfind, hset]
  · intro s name srcName src hf
    constructor
    · intro hb
      simp [var_lvar_assign_var, hf, hb, var_lvar_alloc_local,
        var_alloc_cmn, allocStep, allocOk, newVar, setLocalHead,
        VAR_SET_BOOL]
    · intro hb hi hs hd
      simp [var_lvar_assign_var, hf, hb, hi, hs, hd, var_lvar_alloc_local,
        var_alloc_cmn, allocStep, allocOk, newVar, setLocalHead,
        VAR_SET_INT]

/-- Witness for C6's amended theorem: concrete full copy, failing string
copy, and first-facet-only direct copy. -/
theorem var_copy_semantics_amended_witness :
    ((var_copy allocOk emptyState (newVar 1 "d" VarScope.normal)
        srcBI).2.1.bset = true ∧
      (var_copy allocOk emptyState (newVar 1 "d" VarScope.normal)
        srcBI).2.1.boolean = true) ∧
    ((var_copy allocOk emptyState (newVar 1 "d" VarScope.normal)
        srcBI).2.1.iset = true ∧
      (var_copy allocOk emptyState (newVar 1 "d" VarScope.normal)
        srcBI).2.1.integer = 42) ∧
    (var_copy neverAlloc emptyState (newVar 1 "d" VarScope.normal)
      (VAR_SET_STR (newVar 0 "s" VarScope.normal) "t")).1 = -1 ∧
    ((var_lvar_assign_var allocOk sC6 "$d" "$src").1.map Var.iset) =
      some false := by
  refine ⟨?_, ?_, ?_, ?_⟩
  · exact (var_copy_semantics_amended.1 emptyState
      (newVar 1 "d" VarScope.normal) srcBI).2.2.2.1 rfl
  · exact (var_copy_semantics_amended.1 emptyState
      (newVar 1 "d" VarScope.normal) srcBI).2.2.2.2.2.1 rfl
  · exact var_copy_semantics_amended.2.1 neverAlloc emptyState
      (newVar 1 "d" VarScope.normal)
      (VAR_SET_STR (newVar 0 "s" VarScope.normal) "t") rfl rfl
  · exact ((var_copy_semantics_amended.2.2.2 sC6 "$d" "$src" srcBI
      (by decide)).1 rfl).2.1

/-- C7: propagate_defaults — a newly instantiated local variable with no
facet set receives a copy of every set facet of the same-named prototype
local variable when one exists; a local with any facet already set is
returned unchanged with the state untouched, regardless of the prototype
list; and with no same-named prototype entry it is returned unchanged
without error. -/
theorem propagate_defaults_semantics :
    (∀ (A : Nat → Bool) (s : FbState) (newlvar : Var)
        (protoCompVars mstr : List Var),
      var_find_list_only newlvar.name protoCompVars = none →
      var_update_comp_lvars A s newlvar protoCompVars mstr = (newlvar, s)) ∧
    (∀ (A : Nat → Bool) (s : FbState) (newlvar : Var)
        (protoCompVars mstr : List Var),
      noFacetSet newlvar = false →
      var_update_comp_lvars A s newlvar protoCompVars mstr = (newlvar, s)) ∧
    (∀ (s : FbState) (newlvar : Var) (protoCompVars mstr : List Var)
        (p : Var),
      var_find_list_only newlvar.name protoCompVars = some p →
      noFacetSet newlvar = true →
      ((var_update_comp_lvars allocOk s newlvar protoCompVars
          mstr).1.name = newlvar.name ∧
       (var_update_comp_lvars allocOk s newlvar protoCompVars
          mstr).1.scope = newlvar.scope ∧
       (var_update_comp_lvars allocOk s newlvar protoCompVars
          mstr).1.bset = p.bset ∧
       (p.bset = true →
         (var_update_comp_lvars allocOk s newlvar protoCompVars
            mstr).1.boolean = p.boolean) ∧
       (var_update_comp_lvars allocOk s newlvar protoCompVars
          mstr).1.iset = p.iset ∧
       (p.iset = true →
         (var_update_comp_lvars allocOk s newlvar protoCompVars
            mstr).1.integer = p.integer) ∧
       (var_update_comp_lvars allocOk s newlvar protoCompVars
          mstr).1.dset = p.dset ∧
       (p.dset = true →
         (var_update_comp_lvars allocOk s newlvar protoCompVars
            mstr).1.dblflt = p.dblflt) ∧
       (var_update_comp_lvars allocOk s newlvar protoCompVars
          mstr).1.sset = p.sset ∧
       (p.sset = true →
         (var_update_comp_lvars allocOk s newlvar protoCompVars
            mstr).1.string = some (p.string.getD "")))) := by
  refine ⟨?_, ?_, ?_⟩
  · intro A s newlvar protoCompVars mstr hfind
    simp [var_update_comp_lvars, hfind]
  · intro A s newlvar protoCompVars mstr hset
    unfold var_update_comp_lvars
    split
    · rfl
    · rw [if_neg (by simp [hset])]
  · intro s newlvar protoCompVars mstr p hfind hset
    have hflags := hset
    simp only [noFacetSet, Bool.and_eq_true, Bool.not_eq_true'] at hflags
    obtain ⟨⟨⟨⟨hb0, hi0⟩, hd0⟩, hs0⟩, hr0⟩ := hflags
    cases hb : p.bset <;> cases hi : p.iset <;>
      cases hd : p.dset <;> cases hs : p.sset <;>
      simp [var_update_comp_lvars, hfind, hset, var_copy, allocStep,
        allocOk, hb, hi, hd, hs, hb0, hi0, hd0, hs0,
        VAR_SET_BOOL, VAR_SET_INT, VAR_SET_DBL, VAR_SET_STR]

/-- Witness for C7: a concrete unset local inheriting from a prototype
with boolean and integer facets set, plus the unchanged cases. -/
theorem propagate_defaults_semantics_witness :
    var_update_comp_lvars allocOk emptyState (newVar 2 "src" VarScope.loc)
      [] [] = (newVar 2 "src" VarScope.loc, emptyState) ∧
    var_update_comp_lvars allocOk emptyState rvar [srcBI] [] =
      (rvar, emptyState) ∧
    ((var_update_comp_lvars allocOk emptyState
        (newVar 2 "src" VarScope.loc) [srcBI] []).1.bset = true ∧
      (var_update_comp_lvars allocOk emptyState
        (newVar 2 "src" VarScope.loc) [srcBI] []).1.integer = 42) := by
  refine ⟨?_, ?_, ?_, ?_⟩
  · exact propagate_defaults_semantics.1 allocOk emptyState
      (newVar 2 "src" VarScope.loc) [] [] (by decide)
  · exact propagate_defaults_semantics.2.1 allocOk emptyState rvar
      [srcBI] [] (by decide)
  · exact (propagate_defaults_semantics.2.2 emptyState
      (newVar 2 "src" VarScope.loc) [srcBI] [] srcBI (by decide)
      (by decide)).2.2.1
  · exact (propagate_defaults_semantics.2.2 emptyState
      (newVar 2 "src" VarScope.loc) [srcBI] [] srcBI (by decide)
      (by decide)).2.2.2.2.2.1 rfl

/-- C8 (counterexample): c8var is not random, its boolean facet is set to
true, and its string facet is set to empty text; the claim's priority
(set and non-empty string first, otherwise boolean) demands "true" here,
but __var_to_string returns the empty string as-is, because the source
only checks the string pointer for null, not the text for emptiness. -/
theorem to_string_empty_string_beats_bool :
    c8var.scope = VarScope.normal ∧ c8var.bset = true ∧
    c8var.boolean = true ∧ c8var.sset = true ∧ c8var.string = some "" ∧
    var_to_string_core c8var = "" ∧ var_to_string_core c8var ≠ "true" := by
  refine ⟨rfl, rfl, rfl, rfl, rfl, ?_, ?_⟩ <;> decide

/-- C8 (amended): __var_to_string follows the priority — random-scoped
variable: the fixed family label, regardless of other facets; otherwise a
string facet that is set with its text present (even empty text) is
returned as-is; otherwise a set boolean facet yields "true"/"false";
otherwise a set integer facet yields its decimal text; otherwise the
literal "No default". -/
theorem var_to_string_priority_amended :
    (∀ (v : Var) (rd : RandDist), v.scope = VarScope.random →
      v.randptr = some rd → var_to_string_core v = familyLabel rd.family) ∧
    (∀ (v : Var) (t : String), v.scope ≠ VarScope.random → v.sset = true →
      v.string = some t → var_to_string_core v = t) ∧
    (∀ (v : Var), v.scope ≠ VarScope.random →
      (v.sset = false ∨ v.string = none) → v.bset = true →
      var_to_string_core v = (if v.boolean then "true" else "false")) ∧
    (∀ (v : Var), v.scope ≠ VarScope.random →
      (v.sset = false ∨ v.string = none) → v.bset = false → v.iset = true →
      var_to_string_core v = toString v.integer) ∧
    (∀ (v : Var), v.scope ≠ VarScope.random →
      (v.sset = false ∨ v.string = none) → v.bset = false →
      v.iset = false → var_to_string_core v = "No default") := by
  refine ⟨?_, ?_, ?_, ?_, ?_⟩
  · intro v rd hsc hrd
    simp [var_to_string_core, hsc, hrd]
  · intro v t hsc hset hstr
    simp [var_to_string_core, hsc, hset, hstr]
  · intro v hsc hnostr hb
    rcases hnostr with h | h <;>
      simp [var_to_string_core, hsc, hb, h]
  · intro v hsc hnostr hb hi
    rcases hnostr with h | h <;>
      simp [var_to_string_core, hsc, hb, hi, h]
  · intro v hsc hnostr hb hi
    rcases hnostr with h | h <;>
      simp [var_to_string_core, hsc, hb, hi, h]

/-- Witness for C8's amended theorem: the concrete priority scenarios. -/
theorem var_to_string_priority_amended_witness :
    var_to_string_core rvar = "uniform random var" ∧
    var_to_string_core (VAR_SET_STR (newVar 0 "v" VarScope.normal)
      "abc") = "abc" ∧
    var_to_string_core (VAR_SET_BOOL (newVar 0 "v" VarScope.normal)
      true) = "true" ∧
    var_to_string_core (VAR_SET_INT (newVar 0 "v" VarScope.normal)
      42) = "42" ∧
    var_to_string_core (newVar 0 "v" VarScope.normal) = "No default" := by
  refine ⟨?_, ?_, ?_, ?_, ?_⟩
  · exact var_to_string_priority_amended.1 rvar rdUnif rfl rfl
  · exact var_to_string_priority_amended.2.1
      (VAR_SET_STR (newVar 0 "v" VarScope.normal) "abc") "abc"
      (by decide) rfl rfl
  · have h := var_to_string_priority_amended.2.2.1
      (VAR_SET_BOOL (newVar 0 "v" VarScope.normal) true)
      (by decide) (Or.inl rfl) rfl
    simpa using h
  · have h := var_to_string_priority_amended.2.2.2.1
      (VAR_SET_INT (newVar 0 "v" VarScope.normal) 42)
      (by decide) (Or.inl rfl) rfl rfl
    simpa using h
  · exact var_to_string_priority_amended.2.2.2.2
      (newVar 0 "v" VarScope.normal) (by decide) (Or.inl rfl) rfl rfl

lemma var_alloc_cmn_term (A : Nat → Bool) (s : FbState) (name : String)
    (scope : VarScope) : (var_alloc_cmn A s name scope).2.term = s.term := by
  cases h1 : A s.ticks <;> cases h2 : A (s.ticks + 1) <;> cases scope <;>
    simp [var_alloc_cmn, allocStep, h1, h2]

lemma var_alloc_term (A : Nat → Bool) (s : FbState) (name : String) :
    (var_alloc A s name).2.term = s.term :=
  var_alloc_cmn_term A s name VarScope.normal

lemma setFoundVar_term (s : FbState) (name : String) (f : Var → Var) :
    (setFoundVar s name f).term = s.term := by
  unfold setFoundVar
  split <;> rfl

lemma setLocalHead_term (s : FbState) (d : Var) :
    (setLocalHead s d).term = s.term := by
  unfold setLocalHead
  split <;> rfl

lemma var_find_alloc_term (A : Nat → Bool) (s : FbState)
    (name : Option String) : (var_find_alloc A s name).2.term = s.term := by
  unfold var_find_alloc
  cases name with
  | none => rfl
  | some nm =>
    cases h : var_find s (nm.drop 1) <;>
      simp [h, var_alloc, var_alloc_cmn_term]

lemma var_assign_boolean_term (A : Nat → Bool) (s : FbState) (name : String)
    (b : Bool) : (var_assign_boolean A s name b).2.term = s.term := by
  have h := var_find_alloc_term A s (some name)
  rcases hr : var_find_alloc A s (some name) with ⟨o, s1⟩
  rw [hr] at h
  replace h : s1.term = s.term := h
  cases o with
  | none => simp [var_assign_boolean, hr, h]
  | some v =>
    simp only [var_assign_boolean, hr]
    split <;> simp [setFoundVar_term, h]

lemma var_assign_integer_term (A : Nat → Bool) (s : FbState) (name : String)
    (i : Nat) : (var_assign_integer A s name i).2.term = s.term := by
  have h := var_find_alloc_term A s (some name)
  rcases hr : var_find_alloc A s (some name) with ⟨o, s1⟩
  rw [hr] at h
  replace h : s1.term = s.term := h
  cases o with
  | none => simp [var_assign_integer, hr, h]
  | some v =>
    simp only [var_assign_integer, hr]
    split <;> simp [setFoundVar_term, h]

lemma var_assign_string_term (A : Nat → Bool) (s : FbState)
    (name txt : String) : (var_assign_string A s name txt).2.term = s.term := by
  cases hf : var_find s (name.drop 1) with
  | some v =>
    simp only [var_assign_string, hf]
    split
    · rfl
    · split <;> simp [allocStep, setFoundVar_term]
  | none =>
    have h := var_alloc_term A s (name.drop 1)
    rcases hr : var_alloc A s (name.drop 1) with ⟨o, s1⟩
    rw [hr] at h
    replace h : s1.term = s.term := h
    cases o with
    | none => simp [var_assign_string, hf, hr, h]
    | some v =>
      simp only [var_assign_string, hf, hr]
      split
      · simp [h]
      · split <;> simp [allocStep, setFoundVar_term, h]

lemma randdist_alloc_term (A : Nat → Bool) (s : FbState) :
    (randdist_alloc A s).2.term = s.term := by
  cases h : A s.ticks <;> simp [randdist_alloc, allocStep, h]

lemma var_define_randvar_term (A : Nat → Bool) (s : FbState)
    (name : String) : (var_define_randvar A s name).2.term = s.term := by
  cases hf : (var_find s (name.drop 1)).isSome with
  | true => simp [var_define_randvar, hf]
  | false =>
    have h := var_alloc_cmn_term A s (name.drop 1) VarScope.random
    rcases hr : var_alloc_cmn A s (name.drop 1) VarScope.random with ⟨o, s1⟩
    rw [hr] at h
    replace h : s1.term = s.term := h
    cases o with
    | none => simp [var_define_randvar, hf, hr, h]
    | some v =>
      have h2 := randdist_alloc_term A s1
      rcases hr2 : randdist_alloc A s1 with ⟨o2, s2⟩
      rw [hr2] at h2
      replace h2 : s2.term = s1.term := h2
      cases o2 with
      | none => simp [var_define_randvar, hf, hr, hr2, h, h2]
      | some rd =>
        simp [var_define_randvar, hf, hr, hr2, setFoundVar_term, h, h2]

lemma var_lvar_alloc_local_term (A : Nat → Bool) (s : FbState)
    (name : String) : (var_lvar_alloc_local A s name).2.term = s.term := by
  unfold var_lvar_alloc_local
  exact var_alloc_cmn_term A s _ VarScope.loc

lemma var_lvar_assign_var_term (A : Nat → Bool) (s : FbState)
    (name srcName : String) :
    (var_lvar_assign_var A s name srcName).2.term = s.term := by
  cases hf : var_find s (srcName.drop 1) with
  | none => simp [var_lvar_assign_var, hf]
  | some src =>
    have h := var_lvar_alloc_local_term A s name
    rcases hr : var_lvar_alloc_local A s name with ⟨o, s1⟩
    rw [hr] at h
    replace h : s1.term = s.term := h
    cases o with
    | none => simp [var_lvar_assign_var, hf, hr, h]
    | some dst =>
      cases hb : src.bset <;> cases hi : src.iset <;>
        cases hs2 : src.sset <;> cases hd : src.dset <;>
        cases hrs : src.rset <;>
        cases hA : A s1.ticks <;>
        simp [var_lvar_assign_var, hf, hr, hb, hi, hs2, hd, hrs, hA,
          allocStep, setLocalHead_term, h]

lemma var_copy_term (A : Nat → Bool) (s : FbState) (dst src : Var) :
    (var_copy A s dst src).2.2.term = s.term := by
  cases hs2 : src.sset <;> cases hA : A s.ticks <;>
    simp [var_copy, allocStep, hs2, hA]

lemma var_update_comp_lvars_term (A : Nat → Bool) (s : FbState)
    (newlvar : Var) (protoCompVars mstrLvars : List Var) :
    (var_update_comp_lvars A s newlvar protoCompVars
      mstrLvars).2.term = s.term := by
  unfold var_update_comp_lvars
  split
  · rfl
  · split
    · exact var_copy_term A s _ _
    · rfl

lemma var_find_special_term (A : Nat → Bool) (P : Providers)
    (genv : String → Option String) (s : FbState) (name : String) :
    (var_find_special A P genv s name).2.term = s.term := by
  cases hfb : findByName s.specialList name with
  | some v =>
    simp only [var_find_special, hfb]
    split
    · split <;> rfl
    · split
      · split <;> rfl
      · rfl
  | none =>
    have h := var_alloc_cmn_term A s name VarScope.special
    rcases hr : var_alloc_special A s name with ⟨o, s1⟩
    rw [var_alloc_special] at hr
    rw [hr] at h
    replace h : s1.term = s.term := h
    cases o with
    | none => simp [var_find_special, hfb, var_alloc_special, hr, h]
    | some v =>
      simp only [var_find_special, hfb, var_alloc_special, hr]
      split
      · split <;> simp [h]
      · split
        · split <;> simp [h]
        · simp [h]

lemma avd_alloc_var_ptr_term (A : Nat → Bool) (s : FbState)
    (v? : Option Var) : (avd_alloc_var_ptr A s v?).2.term = s.term := by
  cases v? with
  | none => rfl
  | some v =>
    cases hb : v.bset <;> cases hi : v.iset <;> cases hs2 : v.sset <;>
      cases hd : v.dset <;> cases hrs : v.rset <;>
      cases hA : A s.ticks <;>
      simp [avd_alloc_var_ptr, allocStep, hb, hi, hs2, hd, hrs, hA]

lemma var_alloc_cmn_allocOk_isSome (s : FbState) (name : String)
    (scope : VarScope) :
    (var_alloc_cmn allocOk s name scope).1 =
      some (newVar s.nextId name scope) := by
  cases scope <;> rfl

lemma var_ref_attr_fatal_iff (A : Nat → Bool) (P : Providers)
    (genv : String → Option String) (s : FbState) (name : String)
    (h : s.term = false) :
    ((var_ref_attr A P genv s name).2.term = true) ↔
      (var_find s (name.drop 1) = none ∧
       (var_find_special A P genv s (name.drop 1)).1 = none ∧
       (var_alloc A (var_find_special A P genv s (name.drop 1)).2
          (name.drop 1)).1 = none) := by
  cases hf : var_find s (name.drop 1) with
  | some v =>
    simp only [var_ref_attr, hf]
    simp [avd_alloc_var_ptr_term, h]
  | none =>
    rcases hs1 : var_find_special A P genv s (name.drop 1) with ⟨o1, s1⟩
    have ht1 : s1.term = s.term := by
      have hx := var_find_special_term A P genv s (name.drop 1)
      rw [hs1] at hx
      exact hx
    cases o1 with
    | some v =>
      simp only [var_ref_attr, hf, hs1]
      simp [avd_alloc_var_ptr_term, ht1, h]
    | none =>
      rcases ha : var_alloc A s1 (name.drop 1) with ⟨o2, s2⟩
      have ht2 : s2.term = s1.term := by
        have hx := var_alloc_term A s1 (name.drop 1)
        rw [ha] at hx
        exact hx
      cases o2 with
      | some v =>
        simp only [var_ref_attr, hf, hs1, ha]
        simp [avd_alloc_var_ptr_term, ht2, ht1, h]
      | none =>
        simp only [var_ref_attr, hf, hs1, ha]
        simp

/-- C9: the only operation in this core that raises the shutdown flag is
reference construction: every other operation returns with the flag
exactly as it found it; var_ref_attr shuts the process down precisely when
var_find, Special resolution, and allocation of a new global have all
failed; and with a working arena the shutdown can never happen. -/
theorem shutdown_only_on_unresolved_reference :
    (∀ (A : Nat → Bool) (s : FbState) (name : String) (b : Bool),
      (var_assign_boolean A s name b).2.term = s.term) ∧
    (∀ (A : Nat → Bool) (s : FbState) (name : String) (i : Nat),
      (var_assign_integer A s name i).2.term = s.term) ∧
    (∀ (A : Nat → Bool) (s : FbState) (name txt : String),
      (var_assign_string A s name txt).2.term = s.term) ∧
    (∀ (A : Nat → Bool) (s : FbState) (name : String),
      (var_define_randvar A s name).2.term = s.term) ∧
    (∀ (A : Nat → Bool) (s : FbState) (name : String),
      (var_lvar_alloc_local A s name).2.term = s.term) ∧
    (∀ (A : Nat → Bool) (s : FbState) (name srcName : String),
      (var_lvar_assign_var A s name srcName).2.term = s.term) ∧
    (∀ (A : Nat → Bool) (s : FbState) (newlvar : Var)
        (protoCompVars mstrLvars : List Var),
      (var_update_comp_lvars A s newlvar protoCompVars
        mstrLvars).2.term = s.term) ∧
    (∀ (A : Nat → Bool) (P : Providers) (genv : String → Option String)
        (s : FbState) (name : String),
      (var_find_special A P genv s name).2.term = s.term) ∧
    (∀ (A : Nat → Bool) (s : FbState) (dst src : Var),
      (var_copy A s dst src).2.2.term = s.term) ∧
    (∀ (A : Nat → Bool) (s : FbState) (v? : Option Var),
      (avd_alloc_var_ptr A s v?).2.term = s.term) ∧
    (∀ (A : Nat → Bool) (P : Providers) (genv : String → Option String)
        (s : FbState) (name : String), s.term = false →
      (((var_ref_attr A P genv s name).2.term = true) ↔
        (var_find s (name.drop 1) = none ∧
         (var_find_special A P genv s (name.drop 1)).1 = none ∧
         (var_alloc A (var_find_special A P genv s (name.drop 1)).2
            (name.drop 1)).1 = none))) ∧
    (∀ (P : Providers) (genv : String → Option String) (s : FbState)
        (name : String), s.term = false →
      (var_ref_attr allocOk P genv s name).2.term = false) := by
  refine ⟨var_assign_boolean_term, var_assign_integer_term,
    var_assign_string_term, var_define_randvar_term,
    var_lvar_alloc_local_term, var_lvar_assign_var_term,
    var_update_comp_lvars_term, var_find_special_term, var_copy_term,
    avd_alloc_var_ptr_term, var_ref_attr_fatal_iff, ?_⟩
  intro P genv s name h
  cases ht : (var_ref_attr allocOk P genv s name).2.term with
  | false => rfl
  | true =>
    exfalso
    have h3 := ((var_ref_attr_fatal_iff allocOk P genv s name h).mp ht).2.2
    rw [show var_alloc allocOk
        (var_find_special allocOk P genv s (name.drop 1)).2 (name.drop 1) =
      var_alloc_cmn allocOk
        (var_find_special allocOk P genv s (name.drop 1)).2 (name.drop 1)
        VarScope.normal from rfl] at h3
    rw [var_alloc_cmn_allocOk_isSome] at h3
    exact Option.noConfusion h3

/-- Witness for C9: a working arena never shuts down on a fresh
reference, while an exhausted arena shuts the process down through
var_ref_attr. -/
theorem shutdown_only_on_unresolved_reference_witness :
    (var_ref_attr allocOk noProviders noEnv emptyState "$y").2.term =
      false ∧
    (var_ref_attr neverAlloc noProviders noEnv emptyState "$y").2.term =
      true :=
  ⟨shutdown_only_on_unresolved_reference.2.2.2.2.2.2.2.2.2.2.2
      noProviders noEnv emptyState "$y" rfl,
   (shutdown_only_on_unresolved_reference.2.2.2.2.2.2.2.2.2.2.1
      neverAlloc noProviders noEnv emptyState "$y" rfl).mpr (by decide)⟩

/-- C10: when var_define_randvar allocates and links its random-scoped
variable but the subsequent distribution allocation fails, it returns the
none sentinel while the variable stays linked in the global registry,
random-scoped, with no distribution attached; from then on the name is
consumed — another var_define_randvar of the same name fails with
name-already-in-use (state unchanged), and var_find_randvar fails with
the not-random condition. -/
theorem define_randvar_partial_failure_consumes_name :
    ∀ (A : Nat → Bool) (s : FbState) (name : String),
      var_find s (name.drop 1) = none →
      A s.ticks = true → A (s.ticks + 1) = true →
      A (s.ticks + 2) = false →
      ∃ (v : Var) (s₂ : FbState),
        var_define_randvar A s name = (none, s₂) ∧
        var_find s₂ (name.drop 1) = some v ∧
        v.scope = VarScope.random ∧ v.rset = false ∧ v.randptr = none ∧
        (∀ A₂ : Nat → Bool, var_define_randvar A₂ s₂ name = (none, s₂)) ∧
        var_find_randvar s₂ name = none := by
  intro A s name hf h0 h1 h2
  have h2' : A (s.ticks + 1 + 1) = false := h2
  have hl : findByName s.locList (name.drop 1) = none := by
    revert hf
    unfold var_find
    cases h : findByName s.locList (name.drop 1) <;> simp [h]
  have hg : findByName s.varList (name.drop 1) = none := by
    revert hf
    unfold var_find
    cases h : findByName s.locList (name.drop 1) <;> simp [h]
  have hfindS : var_find
      { s with
          ticks := s.ticks + 3
          nextId := s.nextId + 1
          varList := s.varList ++
            [newVar s.nextId (name.drop 1) VarScope.random] }
      (name.drop 1) =
      some (newVar s.nextId (name.drop 1) VarScope.random) := by
    unfold var_find
    rw [show ({ s with
        ticks := s.ticks + 3
        nextId := s.nextId + 1
        varList := s.varList ++
          [newVar s.nextId (name.drop 1) VarScope.random] } :
        FbState).locList = s.locList from rfl, hl]
    simp only []
    rw [findByName_append, hg]
    simp only [Option.none_or]
    exact findByName_cons_self _ [] rfl
  refine ⟨newVar s.nextId (name.drop 1) VarScope.random,
    { s with
        ticks := s.ticks + 3
        nextId := s.nextId + 1
        varList := s.varList ++
          [newVar s.nextId (name.drop 1) VarScope.random] },
    ?_, hfindS, rfl, rfl, rfl, ?_, ?_⟩
  · simp [var_define_randvar, hf, var_alloc_cmn, allocStep, h0, h1,
      randdist_alloc, h2']
  · intro A₂
    simp [var_define_randvar, hfindS]
  · simp only [var_find_randvar, hfindS]
    simp [newVar]

/-- Witness for C10: the concrete arena that satisfies the variable and
name allocations and then fails on the distribution allocation. -/
theorem define_randvar_partial_failure_consumes_name_witness :
    ∃ (v : Var) (s₂ : FbState),
      var_define_randvar twoThenFail emptyState "$r" = (none, s₂) ∧
      var_find s₂ ("$r".drop 1) = some v ∧
      v.scope = VarScope.random ∧ v.rset = false ∧ v.randptr = none ∧
      (∀ A₂ : Nat → Bool, var_define_randvar A₂ s₂ "$r" = (none, s₂)) ∧
      var_find_randvar s₂ "$r" = none :=
  define_randvar_partial_failure_consumes_name twoThenFail emptyState "$r"
    (by decide) (by decide) (by decide) (by decide)

end FbVars
